import Mathlib

/-!
Shallow embedding of the kube-ovn-operator VPN gateway controller
(`internal/controller` and `api/v1` packages) in Lean 4, together with
theorems settling the specification claims about it.

Go maps become association lists with overwrite-on-insert, Go slices
become `List`, nil-able Go slices become `Option (List _)`, Go errors
become `Option String`, and calls to the external cluster (get/create/
update/list/exec) are modelled by an environment record holding each
call's result.  In-place mutation of an argument (the Go map aliasing in
`statefulSetForVpnGw`) is modelled by returning the mutated object.
-/

namespace KubeOvnOperator

/-- Association-list lookup for Go `map[string]string`. -/
def mapLookup (m : List (String × String)) (k : String) : Option String :=
  match m with
  | [] => none
  | p :: rest => if p.1 = k then some p.2 else mapLookup rest k

/-- Go map assignment `m[k] = v`: overwrite the key if present, append otherwise. -/
def mapInsert (m : List (String × String)) (k v : String) : List (String × String) :=
  match m with
  | [] => [(k, v)]
  | p :: rest => if p.1 = k then (k, v) :: rest else p :: mapInsert rest k v

/-- Sync outcome returned by the reconcile handlers (`SyncState` in the source). -/
inductive SyncState where
  | SyncStateSuccess
  | SyncStateError
  | SyncStateErrorNoRetry
deriving DecidableEq, Repr

export SyncState (SyncStateSuccess SyncStateError SyncStateErrorNoRetry)

/-- Affinity with its three nil-able sub-selectors (payloads kept abstract). -/
structure Affinity where
  nodeAffinity : Option String
  podAffinity : Option String
  podAntiAffinity : Option String
deriving DecidableEq, Repr

/-- `VpnGwSpec` of the gateway custom resource. -/
structure VpnGwSpec where
  subnet : String
  ip : String
  cpu : String
  memory : String
  qoSBandwidth : String
  replicas : Int
  enableSslVpn : Bool
  ovpnCipher : String
  ovpnProto : String
  ovpnPort : Int
  ovpnSubnetCidr : String
  sslVpnImage : String
  sslSecret : String
  dhSecret : String
  enableIpsecVpn : Bool
  ipsecVpnImage : String
  ipsecSecret : String
  ipsecConnections : Option (List String)
  selector : List String
  tolerations : List String
  affinity : Affinity
deriving DecidableEq, Repr

/-- `VpnGwStatus`: the mirror of the spec fields as last observed. -/
structure VpnGwStatus where
  subnet : String
  ip : String
  cpu : String
  memory : String
  qoSBandwidth : String
  replicas : Int
  enableSslVpn : Bool
  ovpnCipher : String
  ovpnProto : String
  ovpnPort : Int
  ovpnSubnetCidr : String
  sslVpnImage : String
  enableIpsecVpn : Bool
  ipsecVpnImage : String
  ipsecConnections : Option (List String)
  selector : List String
  tolerations : List String
  affinity : Affinity
deriving DecidableEq, Repr

/-- The gateway custom resource. -/
structure VpnGw where
  name : String
  ns : String
  spec : VpnGwSpec
  status : VpnGwStatus
deriving DecidableEq, Repr

/-- `validateVpnGw` from the gateway controller: the sequence of checks,
returning the first error (the log calls carry no state). -/
def validateVpnGw (gw : VpnGw) : Option String :=
  if gw.spec.subnet = "" then
    some "vpn gw subnet is required"
  else if gw.status.subnet ≠ "" ∧ gw.spec.subnet ≠ gw.status.subnet then
    some "vpn gw subnet not support change"
  else
    -- the Ip branch only logs (random allocate vs user set); no error either way
    if gw.spec.replicas ≠ 1 then
      some "vpn gw replicas should only be 1 for now"
    else if gw.spec.enableSslVpn then
      if gw.spec.ovpnCipher = "" then
        some "ssl vpn cipher is required"
      else if gw.spec.ovpnProto = "" then
        some "ssl vpn proto is required"
      else if gw.spec.ovpnPort ≠ 1149 ∧ gw.spec.ovpnPort ≠ 443 then
        some "ssl vpn port is required"
      else if gw.spec.ovpnSubnetCidr = "" then
        some "ssl vpn subnet cidr is required"
      else if gw.spec.ovpnProto ≠ "udp" ∧ gw.spec.ovpnProto ≠ "tcp" then
        some "ssl vpn proto should be udp or tcp"
      else if gw.spec.sslVpnImage = "" then
        some "ssl vpn image is required"
      else none
    else none

/-!
`isChanged` from the gateway controller.  The Go function is a sequence of
independent if-blocks that mutate `gw` in place and raise a `changed` flag;
each block becomes one step on the pair `(gw, changed)`, composed in source
order.
-/

/-- Block 1 of `isChanged`: one-way subnet initialization. -/
def syncSubnet (s : VpnGw × Bool) : VpnGw × Bool :=
  if s.1.status.subnet = "" ∧ s.1.spec.subnet ≠ "" then
    ({ s.1 with status.subnet := s.1.spec.subnet }, true)
  else s

/-- Block 2 of `isChanged`: Cpu. -/
def syncCpu (s : VpnGw × Bool) : VpnGw × Bool :=
  if s.1.status.cpu ≠ s.1.spec.cpu then
    ({ s.1 with status.cpu := s.1.spec.cpu }, true)
  else s

/-- Block 3 of `isChanged`: Memory. -/
def syncMemory (s : VpnGw × Bool) : VpnGw × Bool :=
  if s.1.status.memory ≠ s.1.spec.memory then
    ({ s.1 with status.memory := s.1.spec.memory }, true)
  else s

/-- Block 4 of `isChanged`: QoSBandwidth. -/
def syncQoS (s : VpnGw × Bool) : VpnGw × Bool :=
  if s.1.status.qoSBandwidth ≠ s.1.spec.qoSBandwidth then
    ({ s.1 with status.qoSBandwidth := s.1.spec.qoSBandwidth }, true)
  else s

/-- Block 5 of `isChanged`: Ip. -/
def syncIp (s : VpnGw × Bool) : VpnGw × Bool :=
  if s.1.status.ip ≠ s.1.spec.ip then
    ({ s.1 with status.ip := s.1.spec.ip }, true)
  else s

/-- Block 6 of `isChanged`: Replicas. -/
def syncReplicas (s : VpnGw × Bool) : VpnGw × Bool :=
  if s.1.status.replicas ≠ s.1.spec.replicas then
    ({ s.1 with status.replicas := s.1.spec.replicas }, true)
  else s

/-- Block 7 of `isChanged`: the `EnableSslVpn` toggle; the five dependent
fields are compared and copied only inside the toggle-difference branch.
The Go writes happen one after another on `gw`, but none of the guards reads
a field written by an earlier write in the block, so they all read the
incoming state. -/
def syncSsl (s : VpnGw × Bool) : VpnGw × Bool :=
  if s.1.status.enableSslVpn ≠ s.1.spec.enableSslVpn then
    ({ s.1 with
        status.enableSslVpn := s.1.spec.enableSslVpn,
        status.ovpnCipher := if s.1.status.ovpnCipher ≠ s.1.spec.ovpnCipher then
          s.1.spec.ovpnCipher else s.1.status.ovpnCipher,
        status.ovpnProto := if s.1.status.ovpnProto ≠ s.1.spec.ovpnProto then
          s.1.spec.ovpnProto else s.1.status.ovpnProto,
        status.ovpnPort := if s.1.status.ovpnPort ≠ s.1.spec.ovpnPort then
          s.1.spec.ovpnPort else s.1.status.ovpnPort,
        status.ovpnSubnetCidr := if s.1.status.ovpnSubnetCidr ≠ s.1.spec.ovpnSubnetCidr then
          s.1.spec.ovpnSubnetCidr else s.1.status.ovpnSubnetCidr,
        status.sslVpnImage := if s.1.status.sslVpnImage ≠ s.1.spec.sslVpnImage then
          s.1.spec.sslVpnImage else s.1.status.sslVpnImage }, true)
  else s

/-- Block 8 of `isChanged`: the `EnableIpsecVpn` toggle and its dependent
image field (same shape as the SSL block). -/
def syncIpsec (s : VpnGw × Bool) : VpnGw × Bool :=
  if s.1.status.enableIpsecVpn ≠ s.1.spec.enableIpsecVpn then
    ({ s.1 with
        status.enableIpsecVpn := s.1.spec.enableIpsecVpn,
        status.ipsecVpnImage := if s.1.status.ipsecVpnImage ≠ s.1.spec.ipsecVpnImage then
          s.1.spec.ipsecVpnImage else s.1.status.ipsecVpnImage }, true)
  else s

/-- Block 9 of `isChanged`: when IPsec is enabled in status and the supplied
connection list is non-nil, copy a differing list into spec and status and
set `changed` unconditionally. -/
def syncConns (c : Option (List String)) (s : VpnGw × Bool) : VpnGw × Bool :=
  if s.1.status.enableIpsecVpn = true ∧ c.isSome then
    let gw := if s.1.spec.ipsecConnections ≠ c then
        { s.1 with spec.ipsecConnections := c, status.ipsecConnections := c }
      else s.1
    (gw, true)
  else s

/-- Block 10 of `isChanged`: Selector (deep equality). -/
def syncSelector (s : VpnGw × Bool) : VpnGw × Bool :=
  if s.1.spec.selector ≠ s.1.status.selector then
    ({ s.1 with status.selector := s.1.spec.selector }, true)
  else s

/-- Block 11 of `isChanged`: Tolerations (deep equality). -/
def syncTolerations (s : VpnGw × Bool) : VpnGw × Bool :=
  if s.1.spec.tolerations ≠ s.1.status.tolerations then
    ({ s.1 with status.tolerations := s.1.spec.tolerations }, true)
  else s

/-- Block 12 of `isChanged`: Affinity (deep equality). -/
def syncAffinity (s : VpnGw × Bool) : VpnGw × Bool :=
  if s.1.spec.affinity ≠ s.1.status.affinity then
    ({ s.1 with status.affinity := s.1.spec.affinity }, true)
  else s

/-- `isChanged` from the gateway controller: the twelve blocks in source
order, returning the mutated gateway and the changed flag. -/
def isChanged (gw : VpnGw) (ipsecConnections : Option (List String)) : VpnGw × Bool :=
  syncAffinity (syncTolerations (syncSelector (syncConns ipsecConnections
    (syncIpsec (syncSsl (syncReplicas (syncIp (syncQoS (syncMemory
      (syncCpu (syncSubnet (gw, false))))))))))))

/-! Constants of the controller package. -/

def SslVpnServer : String := "ssl"
def IpsecVpnServer : String := "ipsec"
def SslSecretPath : String := "/etc/ovpn/certs"
def DhSecretPath : String := "/etc/ovpn/dh"
def IpsecVpnSecretPath : String := "/etc/ipsec/certs"
def SslVpnStartUpCMD : String := "/etc/openvpn/setup/configure.sh"
def IpsecVpnStartUpCMD : String := "/usr/sbin/charon-systemd"
def EnableSslVpnLabel : String := "enable-ssl-vpn"
def EnableIpsecVpnLabel : String := "enable-ipsec-vpn"
def KubeovnIpAddressAnnotation : String := "ovn.kubernetes.io/ip_address"
def KubeovnLogicalSwitchAnnotation : String := "ovn.kubernetes.io/logical_switch"
def KubeovnIngressRateAnnotation : String := "ovn.kubernetes.io/ingress_rate"
def KubeovnEgressRateAnnotation : String := "ovn.kubernetes.io/egress_rate"
def IpSecBootPcPortKey : String := "bootpc"
def IpSecBootPcPort : Int := 68
def IpSecIsakmpPortKey : String := "isakmp"
def IpSecIsakmpPort : Int := 500
def IpSecNatPortKey : String := "nat"
def IpSecNatPort : Int := 4500
def IpsecProto : String := "UDP"
def OvpnProtoKey : String := "OVPN_PROTO"
def OvpnPortKey : String := "OVPN_PORT"
def OvpnCipherKey : String := "OVPN_CIPHER"
def OvpnSubnetCidrKey : String := "OVPN_SUBNET_CIDR"

/-- One container port declaration. -/
structure ContainerPort where
  containerPort : Int
  portName : String
  protocol : String
deriving DecidableEq, Repr

/-- A container of the synthesized workload (resource quantities kept as the
strings fed to `resource.MustParse`). -/
structure Container where
  name : String
  image : String
  volumeMounts : List (String × String × Bool)
  requestsCpu : String
  requestsMemory : String
  limitsCpu : String
  limitsMemory : String
  command : List String
  ports : List ContainerPort
  env : List (String × String)
  imagePullPolicy : String
  privileged : Bool
  allowPrivilegeEscalation : Bool
deriving DecidableEq, Repr

/-- A secret volume: name, secret name, optional flag. -/
structure Volume where
  name : String
  secretName : String
  optional : Bool
deriving DecidableEq, Repr

/-- The synthesized StatefulSet: object metadata, pod template and spec
fields the controller sets. -/
structure StatefulSet where
  name : String
  ns : String
  labels : List (String × String)
  annotations : List (String × String)
  replicas : Int
  selectorMatchLabels : List (String × String)
  templateLabels : List (String × String)
  templateAnnotations : List (String × String)
  containers : List Container
  volumes : List Volume
  nodeSelector : Option (List (String × String))
  tolerations : Option (List String)
  affinity : Option Affinity
  updateStrategy : String
  ownerReference : Option String
deriving DecidableEq, Repr

/-- `labelsForVpnGw`: the two feature labels (`strconv.FormatBool` renders
`true`/`false`, as `toString` does). -/
def labelsForVpnGw (gw : VpnGw) : List (String × String) :=
  [(EnableSslVpnLabel, toString gw.spec.enableSslVpn),
   (EnableIpsecVpnLabel, toString gw.spec.enableIpsecVpn)]

/-- The SSL VPN container synthesized by `statefulSetForVpnGw`. -/
def sslVpnContainer (gw : VpnGw) : Container :=
  { name := SslVpnServer
    image := gw.spec.sslVpnImage
    volumeMounts := [(gw.spec.sslSecret, SslSecretPath, true),
                     (gw.spec.dhSecret, DhSecretPath, true)]
    requestsCpu := gw.spec.cpu
    requestsMemory := gw.spec.memory
    limitsCpu := gw.spec.cpu
    limitsMemory := gw.spec.memory
    command := [SslVpnStartUpCMD]
    ports := [{ containerPort := gw.spec.ovpnPort, portName := SslVpnServer,
                protocol := gw.spec.ovpnProto.toUpper }]
    env := [(OvpnProtoKey, gw.spec.ovpnProto),
            (OvpnPortKey, toString gw.spec.ovpnPort),
            (OvpnCipherKey, gw.spec.ovpnCipher),
            (OvpnSubnetCidrKey, gw.spec.ovpnSubnetCidr)]
    imagePullPolicy := "IfNotPresent"
    privileged := true
    allowPrivilegeEscalation := true }

/-- The IPsec VPN container synthesized by `statefulSetForVpnGw`. -/
def ipsecVpnContainer (gw : VpnGw) : Container :=
  { name := IpsecVpnServer
    image := gw.spec.ipsecVpnImage
    volumeMounts := [(gw.spec.ipsecSecret, IpsecVpnSecretPath, true)]
    requestsCpu := gw.spec.cpu
    requestsMemory := gw.spec.memory
    limitsCpu := gw.spec.cpu
    limitsMemory := gw.spec.memory
    command := [IpsecVpnStartUpCMD]
    ports := [{ containerPort := IpSecIsakmpPort, portName := IpSecIsakmpPortKey, protocol := IpsecProto },
              { containerPort := IpSecBootPcPort, portName := IpSecBootPcPortKey, protocol := IpsecProto },
              { containerPort := IpSecNatPort, portName := IpSecNatPortKey, protocol := IpsecProto }]
    env := []
    imagePullPolicy := "IfNotPresent"
    privileged := true
    allowPrivilegeEscalation := true }

/-- Node-selector parsing of `statefulSetForVpnGw`: each entry is trimmed and
split on a colon; entries that do not give exactly two parts are skipped. -/
def parseSelectors (selector : List String) : List (String × String) :=
  selector.foldl (fun m v =>
    match v.trim.splitOn ":" with
    | [a, b] => mapInsert m a.trim b.trim
    | _ => m) []

/-- `statefulSetForVpnGw`.  The Go code seeds `newPodAnnotations` with the old
StatefulSet's *object* annotation map when that map is non-empty — sharing the
map itself, so the four controller-key writes also land in the old object.
The mutated old StatefulSet is returned as the second component. -/
def statefulSetForVpnGw (gw : VpnGw) (oldSts : Option StatefulSet) :
    StatefulSet × Option StatefulSet :=
  let labels := labelsForVpnGw gw
  let baseAnnotations : List (String × String) :=
    match oldSts with
    | some o => if o.annotations.length ≠ 0 then o.annotations else []
    | none => []
  let newPodAnnotations :=
    mapInsert (mapInsert (mapInsert (mapInsert baseAnnotations
      KubeovnLogicalSwitchAnnotation gw.spec.subnet)
      KubeovnIpAddressAnnotation gw.spec.ip)
      KubeovnIngressRateAnnotation gw.spec.qoSBandwidth)
      KubeovnEgressRateAnnotation gw.spec.qoSBandwidth
  let containers :=
    (if gw.spec.enableSslVpn then [sslVpnContainer gw] else []) ++
    (if gw.spec.enableIpsecVpn then [ipsecVpnContainer gw] else [])
  let volumes :=
    (if gw.spec.enableSslVpn then
      [{ name := gw.spec.sslSecret, secretName := gw.spec.sslSecret, optional := true },
       { name := gw.spec.dhSecret, secretName := gw.spec.dhSecret, optional := true }]
     else ([] : List Volume)) ++
    (if gw.spec.enableIpsecVpn then
      [{ name := gw.spec.ipsecSecret, secretName := gw.spec.ipsecSecret, optional := true }]
     else [])
  let newSts : StatefulSet :=
    { name := gw.name
      ns := gw.ns
      labels := labels
      annotations := []
      replicas := gw.spec.replicas
      selectorMatchLabels := labels
      templateLabels := labels
      templateAnnotations := newPodAnnotations
      containers := containers
      volumes := volumes
      nodeSelector := if gw.spec.selector.length > 0 then
          some (parseSelectors gw.spec.selector) else none
      tolerations := if gw.spec.tolerations.length > 0 then
          some gw.spec.tolerations else none
      affinity := if gw.spec.affinity.nodeAffinity.isSome ∨
          gw.spec.affinity.podAffinity.isSome ∨
          gw.spec.affinity.podAntiAffinity.isSome then some gw.spec.affinity else none
      updateStrategy := "RollingUpdate"
      ownerReference := some gw.name }
  let oldStsAfter : Option StatefulSet :=
    match oldSts with
    | some o => some (if o.annotations.length ≠ 0 then
        { o with annotations := newPodAnnotations } else o)
    | none => none
  (newSts, oldStsAfter)

/-! The IPsec connection resource and the gateway handler. -/

/-- `IpsecConnSpec` of the connection custom resource. -/
structure IpsecConnSpec where
  vpnGw : String
  auth : String
  ikeVersion : String
  proposals : String
  localCN : String
  localPublicIp : String
  localPrivateCidrs : String
  remoteCN : String
  remotePublicIp : String
  remotePrivateCidrs : String
deriving DecidableEq, Repr

/-- The connection custom resource. -/
structure IpsecConn where
  name : String
  spec : IpsecConnSpec
deriving DecidableEq, Repr

/-- The `fmt.Sprintf` record of one connection in `handleAddOrUpdateVpnGw`:
ten space-separated fields followed by a comma. -/
def formatIpsecConn (v : IpsecConn) : String :=
  v.name ++ " " ++ v.spec.auth ++ " " ++ v.spec.ikeVersion ++ " " ++
  v.spec.proposals ++ " " ++ v.spec.localCN ++ " " ++ v.spec.localPublicIp ++
  " " ++ v.spec.localPrivateCidrs ++ " " ++ v.spec.remoteCN ++ " " ++
  v.spec.remotePublicIp ++ " " ++ v.spec.remotePrivateCidrs ++ ","

/-- The connection-formatting loop of `handleAddOrUpdateVpnGw`: entries whose
`Spec.VpnGw` is empty or differs from the gateway name are skipped; entries
with other empty fields are only logged and still appended. -/
def aggregateConns (gwName : String) (res : List IpsecConn) : String :=
  res.foldl (fun connections v =>
    if v.spec.vpnGw = "" ∨ v.spec.vpnGw ≠ gwName then connections
    else connections ++ formatIpsecConn v) ""

/-- The gateway pod, as far as the handler observes it. -/
structure Pod where
  name : String
  phase : String
deriving DecidableEq, Repr

/-- The triple returned by `ExecuteCommandInContainer` (defined outside this
package): captured standard output, captured error output, and the
execution error. -/
structure ExecResult where
  stdOutput : String
  errOutput : String
  err : Option String
deriving DecidableEq, Repr

/-- Result of the `Get` of the old StatefulSet. -/
inductive GetStsResult where
  | notFound
  | found (sts : StatefulSet)
  | apiError (e : String)
deriving DecidableEq, Repr

instance {ε α : Type} [DecidableEq ε] [DecidableEq α] : DecidableEq (Except ε α) := fun a b =>
  match a, b with
  | .error x, .error y =>
    if h : x = y then isTrue (by rw [h]) else isFalse (fun hh => h (by cases hh; rfl))
  | .error _, .ok _ => isFalse (fun hh => by cases hh)
  | .ok _, .error _ => isFalse (fun hh => by cases hh)
  | .ok x, .ok y =>
    if h : x = y then isTrue (by rw [h]) else isFalse (fun hh => h (by cases hh; rfl))

/-- Results of the external calls `handleAddOrUpdateVpnGw` makes, in call
order: StatefulSet get, create, update, connection list, pod get, command
execution, status update. -/
structure VpnGwReconcileEnv where
  getSts : GetStsResult
  createErr : Option String
  updateErr : Option String
  listConns : Except String (List IpsecConn)
  getPod : Except String Pod
  execRes : ExecResult
  statusUpdateErr : Option String
deriving DecidableEq, Repr

/-- The IPsec tail of `handleAddOrUpdateVpnGw` (everything after the
create-or-update of the StatefulSet).  Returns the sync state and whether
the refresh command was executed.  The `conns` name list is built from all
listed connections only after a refresh execution with `err == nil`; the
final `isChanged` runs on a fresh deep copy of the unmutated `gw`. -/
def handleIpsecTail (env : VpnGwReconcileEnv) (gw : VpnGw) : SyncState × Bool :=
  let phase : Except (SyncState × Bool) (Option (List String)) :=
    if gw.spec.enableIpsecVpn then
      match env.listConns with
      | .error _ => .error (SyncStateError, false)
      | .ok res =>
        let connections := aggregateConns gw.name res
        if connections ≠ "" then
          match env.getPod with
          | .error _ => .error (SyncStateError, false)
          | .ok pod =>
            if pod.phase ≠ "Running" then .error (SyncStateError, false)
            else if env.execRes.err.isSome then .error (SyncStateError, true)
            else .ok (some (res.map (fun conn => conn.name)))
        else .ok none
    else .ok none
  match phase with
  | .error r => r
  | .ok conns =>
    let attempted := conns.isSome
    if (isChanged gw conns).2 then
      if env.statusUpdateErr.isSome then (SyncStateError, attempted)
      else (SyncStateSuccess, attempted)
    else (SyncStateSuccess, attempted)

/-- `handleAddOrUpdateVpnGw`: validate, create or update the StatefulSet,
then run the IPsec tail.  The update-path `isChanged` runs on a deep copy
whose mutation is discarded. -/
def handleAddOrUpdateVpnGw (env : VpnGwReconcileEnv) (gw : VpnGw) : SyncState × Bool :=
  if (validateVpnGw gw).isSome then (SyncStateErrorNoRetry, false)
  else
    match env.getSts with
    | .apiError _ => (SyncStateError, false)
    | .notFound =>
      let _newSts := (statefulSetForVpnGw gw none).1
      if env.createErr.isSome then (SyncStateError, false)
      else handleIpsecTail env gw
    | .found oldSts =>
      if (isChanged gw none).2 then
        let _newSts := (statefulSetForVpnGw gw (some oldSts)).1
        if env.updateErr.isSome then (SyncStateError, false)
        else handleIpsecTail env gw
      else handleIpsecTail env gw

/-! The admission webhook of the connection resource (`api/v1`). -/

/-- `validateIpsecConn` of the webhook: the accumulated field-error list
(`allErrs`); the caller returns nil exactly when the list is empty. -/
def validateIpsecConnErrs (r : IpsecConn) : List String :=
  (if r.spec.vpnGw = "" then ["ipsecConn vpn gw is required"] else []) ++
  (if r.spec.ikeVersion ≠ "0" ∧ r.spec.ikeVersion ≠ "1" ∧ r.spec.ikeVersion ≠ "2" then
    ["ipsec connection spec ike version is invalid"] else []) ++
  (if r.spec.auth ≠ "psk" ∧ r.spec.auth ≠ "pubkey" then
    ["ipsec connection spec auth is invalid"] else []) ++
  (if r.spec.remotePublicIp = "" then ["ipsecConn remote public ip is required"] else []) ++
  (if r.spec.remotePrivateCidrs = "" then ["ipsecConn remote private cidrs is required"] else []) ++
  (if r.spec.localPublicIp = "" then ["ipsecConn localPublicIp is required"] else []) ++
  (if r.spec.localPrivateCidrs = "" then ["ipsecConn local private cidrs is required"] else [])

/-- The webhook `validateIpsecConn`: nil when no field error accumulated,
the aggregate otherwise. -/
def validateIpsecConn (r : IpsecConn) : Option (List String) :=
  if validateIpsecConnErrs r = [] then none else some (validateIpsecConnErrs r)

/-- `ValidateCreate` of the webhook. -/
def ValidateCreate (r : IpsecConn) : Option (List String) :=
  validateIpsecConn r

/-- `ValidateUpdate` of the webhook: field validation of the new object
first, then the owning-gateway immutability check against the old object. -/
def ValidateUpdate (r old : IpsecConn) : Option (List String) :=
  match validateIpsecConn r with
  | some e => some e
  | none =>
    if old.spec.vpnGw ≠ "" ∧ old.spec.vpnGw ≠ r.spec.vpnGw then
      some ["ipsecConn vpn gw can not be changed"]
    else none

/-- `Default` of the webhook: fill auth, IKE version and proposals when
empty. -/
def defaultIpsecConn (r : IpsecConn) : IpsecConn :=
  { r with
    spec.auth := if r.spec.auth = "" then "pubkey" else r.spec.auth,
    spec.ikeVersion := if r.spec.ikeVersion = "" then "2" else r.spec.ikeVersion,
    spec.proposals := if r.spec.proposals = "" then "default" else r.spec.proposals }

/-! The connection controller (`internal/controller/ipsecconn_controller.go`). -/

def VpnGwLabel : String := "vpn-gw"

/-- `validateIpsecConnection` of the connection controller: VpnGw and the
three CIDR/IP fields are hard requirements; invalid IKE version or auth mode
only build a logged error that is not returned. -/
def validateIpsecConnection (ipsecConn : IpsecConn) : Option String :=
  if ipsecConn.spec.vpnGw = "" then
    some "ipsecConn vpn gw is required"
  else
    -- invalid ike version: error constructed and logged only
    -- invalid auth: error constructed and logged only
    if ipsecConn.spec.remotePublicIp = "" then
      some "ipsecConn remote public ip is required"
    else if ipsecConn.spec.remotePrivateCidrs = "" then
      some "ipsecConn remote private cidrs is required"
    else if ipsecConn.spec.localPrivateCidrs = "" then
      some "ipsecConn local private cidrs is required"
    else none

/-- `labelsForIpsecConnection`. -/
def labelsForIpsecConnection (conn : IpsecConn) : List (String × String) :=
  [(VpnGwLabel, conn.spec.vpnGw)]

/-- `handleAddOrUpdateIpsecConnection`: validate, then patch the discovery
label.  Returns the sync state and whether a label patch was issued;
`patchErr` is the result of the issued patch call. -/
def handleAddOrUpdateIpsecConnection (patchErr : Option String)
    (ipsecConn : IpsecConn) : SyncState × Bool :=
  if (validateIpsecConnection ipsecConn).isSome then (SyncStateErrorNoRetry, false)
  else
    let _labels := labelsForIpsecConnection ipsecConn
    if patchErr.isSome then (SyncStateError, true)
    else (SyncStateSuccess, true)

/-!
Field-wise description of `isChanged`, used to settle the claims about the
StatusReconciler.  Unlike `isChanged`, which threads the twelve source
blocks sequentially, this definition gives each resulting field directly.
-/

/-- Field-wise description of `isChanged`: every always-compared status
field becomes the spec value; subnet only initializes; the SSL dependent
fields move only when the SSL toggle differs, the IPsec image only when the
IPsec toggle differs; the connection list is written into spec and status
only when IPsec is enabled in spec, the supplied list is non-nil and it
differs from the spec list; the changed flag is the disjunction of the
block conditions, with the connection-block condition not requiring a
difference. -/
def isChangedModel (gw : VpnGw) (c : Option (List String)) : VpnGw × Bool :=
  let subnetInit := gw.status.subnet = "" ∧ gw.spec.subnet ≠ ""
  let sslFlip := gw.status.enableSslVpn ≠ gw.spec.enableSslVpn
  let ipsecFlip := gw.status.enableIpsecVpn ≠ gw.spec.enableIpsecVpn
  let connsActive := gw.spec.enableIpsecVpn = true ∧ c.isSome = true
  let connsCopy := connsActive ∧ gw.spec.ipsecConnections ≠ c
  let gwNew : VpnGw := { gw with
    spec.ipsecConnections := if connsCopy then c else gw.spec.ipsecConnections,
    status.subnet := if subnetInit then gw.spec.subnet else gw.status.subnet,
    status.cpu := gw.spec.cpu,
    status.memory := gw.spec.memory,
    status.qoSBandwidth := gw.spec.qoSBandwidth,
    status.ip := gw.spec.ip,
    status.replicas := gw.spec.replicas,
    status.enableSslVpn := gw.spec.enableSslVpn,
    status.ovpnCipher := if sslFlip ∧ gw.status.ovpnCipher ≠ gw.spec.ovpnCipher then
      gw.spec.ovpnCipher else gw.status.ovpnCipher,
    status.ovpnProto := if sslFlip ∧ gw.status.ovpnProto ≠ gw.spec.ovpnProto then
      gw.spec.ovpnProto else gw.status.ovpnProto,
    status.ovpnPort := if sslFlip ∧ gw.status.ovpnPort ≠ gw.spec.ovpnPort then
      gw.spec.ovpnPort else gw.status.ovpnPort,
    status.ovpnSubnetCidr := if sslFlip ∧ gw.status.ovpnSubnetCidr ≠ gw.spec.ovpnSubnetCidr then
      gw.spec.ovpnSubnetCidr else gw.status.ovpnSubnetCidr,
    status.sslVpnImage := if sslFlip ∧ gw.status.sslVpnImage ≠ gw.spec.sslVpnImage then
      gw.spec.sslVpnImage else gw.status.sslVpnImage,
    status.enableIpsecVpn := gw.spec.enableIpsecVpn,
    status.ipsecVpnImage := if ipsecFlip ∧ gw.status.ipsecVpnImage ≠ gw.spec.ipsecVpnImage then
      gw.spec.ipsecVpnImage else gw.status.ipsecVpnImage,
    status.ipsecConnections := if connsCopy then c else gw.status.ipsecConnections,
    status.selector := gw.spec.selector,
    status.tolerations := gw.spec.tolerations,
    status.affinity := gw.spec.affinity }
  let changed :=
    decide subnetInit || decide (gw.status.cpu ≠ gw.spec.cpu) ||
    decide (gw.status.memory ≠ gw.spec.memory) ||
    decide (gw.status.qoSBandwidth ≠ gw.spec.qoSBandwidth) ||
    decide (gw.status.ip ≠ gw.spec.ip) ||
    decide (gw.status.replicas ≠ gw.spec.replicas) ||
    decide sslFlip || decide ipsecFlip || decide connsActive ||
    decide (gw.spec.selector ≠ gw.status.selector) ||
    decide (gw.spec.tolerations ≠ gw.status.tolerations) ||
    decide (gw.spec.affinity ≠ gw.status.affinity)
  (gwNew, changed)

lemma syncSubnet_eq (s : VpnGw × Bool) :
    syncSubnet s = ({ s.1 with status.subnet :=
        if s.1.status.subnet = "" ∧ s.1.spec.subnet ≠ "" then s.1.spec.subnet
        else s.1.status.subnet },
      s.2 || decide (s.1.status.subnet = "" ∧ s.1.spec.subnet ≠ "")) := by
  unfold syncSubnet
  split_ifs with h
  · simp [h]
  · simp [h]

lemma syncCpu_eq (s : VpnGw × Bool) :
    syncCpu s = ({ s.1 with status.cpu := s.1.spec.cpu },
      s.2 || decide (s.1.status.cpu ≠ s.1.spec.cpu)) := by
  unfold syncCpu
  split_ifs with h
  · simp [h]
  · rw [not_ne_iff] at h
    rw [← h]
    simp

lemma syncMemory_eq (s : VpnGw × Bool) :
    syncMemory s = ({ s.1 with status.memory := s.1.spec.memory },
      s.2 || decide (s.1.status.memory ≠ s.1.spec.memory)) := by
  unfold syncMemory
  split_ifs with h
  · simp [h]
  · rw [not_ne_iff] at h
    rw [← h]
    simp

lemma syncQoS_eq (s : VpnGw × Bool) :
    syncQoS s = ({ s.1 with status.qoSBandwidth := s.1.spec.qoSBandwidth },
      s.2 || decide (s.1.status.qoSBandwidth ≠ s.1.spec.qoSBandwidth)) := by
  unfold syncQoS
  split_ifs with h
  · simp [h]
  · rw [not_ne_iff] at h
    rw [← h]
    simp

lemma syncIp_eq (s : VpnGw × Bool) :
    syncIp s = ({ s.1 with status.ip := s.1.spec.ip },
      s.2 || decide (s.1.status.ip ≠ s.1.spec.ip)) := by
  unfold syncIp
  split_ifs with h
  · simp [h]
  · rw [not_ne_iff] at h
    rw [← h]
    simp

lemma syncReplicas_eq (s : VpnGw × Bool) :
    syncReplicas s = ({ s.1 with status.replicas := s.1.spec.replicas },
      s.2 || decide (s.1.status.replicas ≠ s.1.spec.replicas)) := by
  unfold syncReplicas
  split_ifs with h
  · simp [h]
  · rw [not_ne_iff] at h
    rw [← h]
    simp

lemma syncSsl_eq (s : VpnGw × Bool) :
    syncSsl s = ({ s.1 with
        status.enableSslVpn := s.1.spec.enableSslVpn,
        status.ovpnCipher := if s.1.status.enableSslVpn ≠ s.1.spec.enableSslVpn ∧
            s.1.status.ovpnCipher ≠ s.1.spec.ovpnCipher then
          s.1.spec.ovpnCipher else s.1.status.ovpnCipher,
        status.ovpnProto := if s.1.status.enableSslVpn ≠ s.1.spec.enableSslVpn ∧
            s.1.status.ovpnProto ≠ s.1.spec.ovpnProto then
          s.1.spec.ovpnProto else s.1.status.ovpnProto,
        status.ovpnPort := if s.1.status.enableSslVpn ≠ s.1.spec.enableSslVpn ∧
            s.1.status.ovpnPort ≠ s.1.spec.ovpnPort then
          s.1.spec.ovpnPort else s.1.status.ovpnPort,
        status.ovpnSubnetCidr := if s.1.status.enableSslVpn ≠ s.1.spec.enableSslVpn ∧
            s.1.status.ovpnSubnetCidr ≠ s.1.spec.ovpnSubnetCidr then
          s.1.spec.ovpnSubnetCidr else s.1.status.ovpnSubnetCidr,
        status.sslVpnImage := if s.1.status.enableSslVpn ≠ s.1.spec.enableSslVpn ∧
            s.1.status.sslVpnImage ≠ s.1.spec.sslVpnImage then
          s.1.spec.sslVpnImage else s.1.status.sslVpnImage },
      s.2 || decide (s.1.status.enableSslVpn ≠ s.1.spec.enableSslVpn)) := by
  unfold syncSsl
  by_cases h : s.1.status.enableSslVpn ≠ s.1.spec.enableSslVpn
  · rw [if_pos h]
    simp [h]
  · rw [if_neg h]
    rw [not_ne_iff] at h
    rw [← h]
    simp

lemma syncIpsec_eq (s : VpnGw × Bool) :
    syncIpsec s = ({ s.1 with
        status.enableIpsecVpn := s.1.spec.enableIpsecVpn,
        status.ipsecVpnImage := if s.1.status.enableIpsecVpn ≠ s.1.spec.enableIpsecVpn ∧
            s.1.status.ipsecVpnImage ≠ s.1.spec.ipsecVpnImage then
          s.1.spec.ipsecVpnImage else s.1.status.ipsecVpnImage },
      s.2 || decide (s.1.status.enableIpsecVpn ≠ s.1.spec.enableIpsecVpn)) := by
  unfold syncIpsec
  by_cases h : s.1.status.enableIpsecVpn ≠ s.1.spec.enableIpsecVpn
  · rw [if_pos h]
    simp [h]
  · rw [if_neg h]
    rw [not_ne_iff] at h
    rw [← h]
    simp

lemma syncConns_eq (c : Option (List String)) (s : VpnGw × Bool) :
    syncConns c s = ({ s.1 with
        spec.ipsecConnections := if (s.1.status.enableIpsecVpn = true ∧ c.isSome = true) ∧
            s.1.spec.ipsecConnections ≠ c then c else s.1.spec.ipsecConnections,
        status.ipsecConnections := if (s.1.status.enableIpsecVpn = true ∧ c.isSome = true) ∧
            s.1.spec.ipsecConnections ≠ c then c else s.1.status.ipsecConnections },
      s.2 || decide (s.1.status.enableIpsecVpn = true ∧ c.isSome = true)) := by
  unfold syncConns
  by_cases h : s.1.status.enableIpsecVpn = true ∧ c.isSome = true
  · rw [if_pos h]
    by_cases h2 : s.1.spec.ipsecConnections ≠ c
    · rw [if_pos h2]
      simp [h, h2]
    · rw [if_neg h2]
      rw [decide_eq_true h]
      rw [not_ne_iff] at h2
      rw [← h2]
      simp
  · rw [if_neg h]
    simp [h]

lemma syncSelector_eq (s : VpnGw × Bool) :
    syncSelector s = ({ s.1 with status.selector := s.1.spec.selector },
      s.2 || decide (s.1.spec.selector ≠ s.1.status.selector)) := by
  unfold syncSelector
  split_ifs with h
  · simp [h]
  · rw [not_ne_iff] at h
    rw [h]
    simp

lemma syncTolerations_eq (s : VpnGw × Bool) :
    syncTolerations s = ({ s.1 with status.tolerations := s.1.spec.tolerations },
      s.2 || decide (s.1.spec.tolerations ≠ s.1.status.tolerations)) := by
  unfold syncTolerations
  split_ifs with h
  · simp [h]
  · rw [not_ne_iff] at h
    rw [h]
    simp

lemma syncAffinity_eq (s : VpnGw × Bool) :
    syncAffinity s = ({ s.1 with status.affinity := s.1.spec.affinity },
      s.2 || decide (s.1.spec.affinity ≠ s.1.status.affinity)) := by
  unfold syncAffinity
  split_ifs with h
  · simp [h]
  · rw [not_ne_iff] at h
    rw [h]
    simp

/-- `isChanged` agrees with its field-wise description. -/
lemma isChanged_eq_model (gw : VpnGw) (c : Option (List String)) :
    isChanged gw c = isChangedModel gw c := by
  unfold isChanged
  simp only [syncSubnet_eq, syncCpu_eq, syncMemory_eq, syncQoS_eq, syncIp_eq,
    syncReplicas_eq, syncSsl_eq, syncIpsec_eq, syncConns_eq, syncSelector_eq,
    syncTolerations_eq, syncAffinity_eq]
  unfold isChangedModel
  simp only [Bool.false_or]

/-! Helper lemmas. -/

lemma mapLookup_mapInsert_self (m : List (String × String)) (k v : String) :
    mapLookup (mapInsert m k v) k = some v := by
  induction m with
  | nil => simp [mapInsert, mapLookup]
  | cons p rest ih =>
    by_cases h : p.1 = k
    · simp [mapInsert, mapLookup, h]
    · simp [mapInsert, mapLookup, h, ih]

lemma mapLookup_mapInsert_ne (m : List (String × String)) (k k2 v : String)
    (h : k ≠ k2) : mapLookup (mapInsert m k2 v) k = mapLookup m k := by
  have h2 : ¬(k2 = k) := fun hh => h hh.symm
  induction m with
  | nil => simp [mapInsert, mapLookup, h2]
  | cons p rest ih =>
    by_cases hp : p.1 = k2
    · simp [mapInsert, mapLookup, hp, h2]
    · simp only [mapInsert, if_neg hp, mapLookup]
      by_cases hk : p.1 = k
      · simp [hk]
      · simp [hk, ih]

/-- Concatenation of a list of strings in list order. -/
def concatStrings (l : List String) : String :=
  match l with
  | [] => ""
  | a :: rest => a ++ concatStrings rest

/-- The aggregation loop with an arbitrary accumulator prepends the
accumulator to the filtered concatenation. -/
lemma aggregateConns_foldl_eq (gwName : String) (res : List IpsecConn) (acc : String) :
    res.foldl (fun connections v =>
      if v.spec.vpnGw = "" ∨ v.spec.vpnGw ≠ gwName then connections
      else connections ++ formatIpsecConn v) acc =
    acc ++ concatStrings ((res.filter (fun v =>
      decide (v.spec.vpnGw ≠ "" ∧ v.spec.vpnGw = gwName))).map formatIpsecConn) := by
  induction res generalizing acc with
  | nil => simp [concatStrings]
  | cons v rest ih =>
    by_cases h : v.spec.vpnGw = "" ∨ v.spec.vpnGw ≠ gwName
    · have hnot : ¬(v.spec.vpnGw ≠ "" ∧ v.spec.vpnGw = gwName) := by
        rcases h with h | h
        · exact fun hc => hc.1 h
        · exact fun hc => h hc.2
      simp only [List.foldl_cons, if_pos h, List.filter_cons, decide_eq_false hnot]
      simpa using ih acc
    · have hq : v.spec.vpnGw ≠ "" ∧ v.spec.vpnGw = gwName := by
        push_neg at h
        exact h
      simp only [List.foldl_cons, if_neg h, List.filter_cons, decide_eq_true hq]
      rw [ih]
      simp [concatStrings, String.append_assoc]

/-! Theorems settling the claims. -/

set_option maxHeartbeats 1000000 in
/-- C5: `validateVpnGw` returns an error exactly when the subnet is empty,
or the status subnet is non-empty and differs from the spec subnet, or the
replica count is not 1, or SSL is enabled and one of cipher, protocol,
client subnet or image is empty, the port is neither 443 nor 1149, or the
protocol is neither udp nor tcp; an absent IP address is never an error. -/
theorem claim_c5_validateVpnGw_iff (gw : VpnGw) :
    (validateVpnGw gw).isSome ↔
      (gw.spec.subnet = "" ∨
       (gw.status.subnet ≠ "" ∧ gw.spec.subnet ≠ gw.status.subnet) ∨
       gw.spec.replicas ≠ 1 ∨
       (gw.spec.enableSslVpn = true ∧
         (gw.spec.ovpnCipher = "" ∨ gw.spec.ovpnProto = "" ∨
          gw.spec.ovpnSubnetCidr = "" ∨ gw.spec.sslVpnImage = "" ∨
          (gw.spec.ovpnPort ≠ 443 ∧ gw.spec.ovpnPort ≠ 1149) ∨
          (gw.spec.ovpnProto ≠ "udp" ∧ gw.spec.ovpnProto ≠ "tcp")))) := by
  unfold validateVpnGw
  split_ifs with h1 h2 h3 h4 h5 h6 h7 h8 h9 h10 <;> simp_all <;> tauto

/-- C6: the aggregated connection string is exactly the concatenation, in
list order, of one formatted record per entry whose owning-gateway field is
non-empty and equals the gateway name; entries whose owning-gateway field
is empty or differs are skipped, entries with other empty fields are still
included, and the result is empty when no entry qualifies. -/
theorem claim_c6_aggregate (gwName : String) (res : List IpsecConn) :
    aggregateConns gwName res =
      concatStrings ((res.filter (fun v =>
        decide (v.spec.vpnGw ≠ "" ∧ v.spec.vpnGw = gwName))).map formatIpsecConn) := by
  unfold aggregateConns
  rw [aggregateConns_foldl_eq]
  simp

/-- C8: once the owning-gateway field of a connection is non-empty, any
update that changes it is rejected by `ValidateUpdate`. -/
theorem claim_c8_vpngw_immutable (r old : IpsecConn)
    (h1 : old.spec.vpnGw ≠ "") (h2 : r.spec.vpnGw ≠ old.spec.vpnGw) :
    (ValidateUpdate r old).isSome := by
  unfold ValidateUpdate
  cases hv : validateIpsecConn r with
  | some e => simp
  | none =>
    rw [if_pos ⟨h1, Ne.symm h2⟩]
    simp

/-- C10: the connection controller fails terminally, without issuing a
label patch, when the remote public IP, the remote private CIDRs or the
local private CIDRs is empty; and with those (and the owning gateway)
non-empty its validation passes for every IKE version and auth value, so
invalid IKE version or auth mode never blocks. -/
theorem claim_c10_labeler_requirements (patchErr : Option String) (conn : IpsecConn) :
    (conn.spec.remotePublicIp = "" ∨ conn.spec.remotePrivateCidrs = "" ∨
        conn.spec.localPrivateCidrs = "" →
      handleAddOrUpdateIpsecConnection patchErr conn = (SyncStateErrorNoRetry, false)) ∧
    (conn.spec.vpnGw ≠ "" → conn.spec.remotePublicIp ≠ "" →
      conn.spec.remotePrivateCidrs ≠ "" → conn.spec.localPrivateCidrs ≠ "" →
      validateIpsecConnection conn = none) := by
  constructor
  · intro h
    unfold handleAddOrUpdateIpsecConnection validateIpsecConnection
    rcases h with h | h | h <;> split_ifs <;> simp_all
  · intro h1 h2 h3 h4
    unfold validateIpsecConnection
    simp [h1, h2, h3, h4]

/-- A connection missing its remote public IP. -/
def connMissingRemoteIp : IpsecConn :=
  { name := "conn-bad",
    spec := { vpnGw := "gw1", auth := "psk", ikeVersion := "2",
              proposals := "default", localCN := "lcn", localPublicIp := "1.2.3.4",
              localPrivateCidrs := "10.0.0.0/24", remoteCN := "rcn",
              remotePublicIp := "", remotePrivateCidrs := "10.1.0.0/24" } }

/-- A connection with invalid IKE version and auth mode but all hard
requirements present. -/
def connBadIkeAuth : IpsecConn :=
  { name := "conn-ike",
    spec := { vpnGw := "gw1", auth := "none", ikeVersion := "9",
              proposals := "default", localCN := "lcn", localPublicIp := "1.2.3.4",
              localPrivateCidrs := "10.0.0.0/24", remoteCN := "rcn",
              remotePublicIp := "5.6.7.8", remotePrivateCidrs := "10.1.0.0/24" } }

/-- Witness for C10 at concrete inputs. -/
theorem claim_c10_witness :
    handleAddOrUpdateIpsecConnection none connMissingRemoteIp = (SyncStateErrorNoRetry, false) ∧
    validateIpsecConnection connBadIkeAuth = none :=
  ⟨(claim_c10_labeler_requirements none connMissingRemoteIp).1 (Or.inl (by decide)),
   (claim_c10_labeler_requirements none connBadIkeAuth).2
     (by decide) (by decide) (by decide) (by decide)⟩

/-- A connection owned by gateway `gw1` with every field set. -/
def connOwnedOld : IpsecConn :=
  { name := "conn-1",
    spec := { vpnGw := "gw1", auth := "psk", ikeVersion := "2",
              proposals := "default", localCN := "lcn", localPublicIp := "1.2.3.4",
              localPrivateCidrs := "10.0.0.0/24", remoteCN := "rcn",
              remotePublicIp := "5.6.7.8", remotePrivateCidrs := "10.1.0.0/24" } }

/-- The same connection with the owning gateway changed. -/
def connOwnedNew : IpsecConn :=
  { connOwnedOld with spec.vpnGw := "gw2" }

/-- Witness for C8 at concrete inputs. -/
theorem claim_c8_witness : (ValidateUpdate connOwnedNew connOwnedOld).isSome :=
  claim_c8_vpngw_immutable connOwnedNew connOwnedOld (by decide) (by decide)

/-- A gateway whose status mirrors its spec exactly (SSL and IPsec off). -/
def gwSynced : VpnGw :=
  { name := "gw1", ns := "ns1",
    spec := { subnet := "net1", ip := "10.0.0.2", cpu := "1", memory := "1Gi",
              qoSBandwidth := "1", replicas := 1, enableSslVpn := false,
              ovpnCipher := "", ovpnProto := "", ovpnPort := 0,
              ovpnSubnetCidr := "", sslVpnImage := "", sslSecret := "",
              dhSecret := "", enableIpsecVpn := false, ipsecVpnImage := "",
              ipsecSecret := "", ipsecConnections := none, selector := [],
              tolerations := [],
              affinity := { nodeAffinity := none, podAffinity := none,
                            podAntiAffinity := none } },
    status := { subnet := "net1", ip := "10.0.0.2", cpu := "1", memory := "1Gi",
                qoSBandwidth := "1", replicas := 1, enableSslVpn := false,
                ovpnCipher := "", ovpnProto := "", ovpnPort := 0,
                ovpnSubnetCidr := "", sslVpnImage := "", enableIpsecVpn := false,
                ipsecVpnImage := "", ipsecConnections := none, selector := [],
                tolerations := [],
                affinity := { nodeAffinity := none, podAffinity := none,
                              podAntiAffinity := none } } }

/-- A gateway with SSL enabled in spec and status alike but whose spec and
status disagree on the cipher. -/
def gwCipherMismatch : VpnGw :=
  { gwSynced with
    spec.enableSslVpn := true,
    spec.ovpnCipher := "AES-256-GCM",
    status.enableSslVpn := true,
    status.ovpnCipher := "BF-CBC" }

/-- C2 counterexample: with the SSL toggle equal in spec and status and only
the cipher differing, `isChanged` neither copies the cipher into status nor
reports a change, contradicting the claim that any mismatch in an SSL
dependent field alone is copied and flagged. -/
theorem claim_c2_counterexample :
    gwCipherMismatch.spec.enableSslVpn = gwCipherMismatch.status.enableSslVpn ∧
    gwCipherMismatch.spec.ovpnCipher ≠ gwCipherMismatch.status.ovpnCipher ∧
    (isChanged gwCipherMismatch none).2 = false ∧
    (isChanged gwCipherMismatch none).1.status.ovpnCipher = "BF-CBC" := by
  decide

/-- C2 (amended): `isChanged` equals its field-wise description — every
always-compared field (subnet one-way; CPU, memory, bandwidth, IP, replicas,
the two toggles, selector, tolerations, affinity) is copied on mismatch and
flagged, but the five SSL dependent fields and the IPsec image are compared
and copied only when their toggle itself differs between spec and status;
a mismatch in a dependent field alone is neither copied nor flagged. -/
theorem claim_c2_amended (gw : VpnGw) (c : Option (List String)) :
    isChanged gw c = isChangedModel gw c :=
  isChanged_eq_model gw c

/-- C7: on a second invocation of `isChanged` with the same connection list,
the changed flag is exactly (IPsec enabled in the resulting status AND the
list non-nil): false in every other case, true in that one — the documented
non-idempotence. -/
theorem claim_c7_second_invocation (gw : VpnGw) (c : Option (List String)) :
    (isChanged (isChanged gw c).1 c).2 =
      ((isChanged gw c).1.status.enableIpsecVpn && c.isSome) := by
  simp only [isChanged_eq_model]
  by_cases hs : gw.status.subnet = "" ∧ gw.spec.subnet ≠ ""
  · cases c <;> simp [isChangedModel, hs]
  · cases c <;> simp [isChangedModel, hs]

/-- A previous StatefulSet with empty object annotations but a pod-template
annotation `foo`. -/
def oldStsTemplateAnn : StatefulSet :=
  { name := "gw1", ns := "ns1", labels := [], annotations := [],
    replicas := 1, selectorMatchLabels := [], templateLabels := [],
    templateAnnotations := [("foo", "bar")], containers := [], volumes := [],
    nodeSelector := none, tolerations := none, affinity := none,
    updateStrategy := "RollingUpdate", ownerReference := none }

/-- A previous StatefulSet carrying the object annotation `foo`. -/
def oldStsWithAnn : StatefulSet :=
  { name := "gw1", ns := "ns1", labels := [], annotations := [("foo", "bar")],
    replicas := 1, selectorMatchLabels := [], templateLabels := [],
    templateAnnotations := [], containers := [], volumes := [],
    nodeSelector := none, tolerations := none, affinity := none,
    updateStrategy := "RollingUpdate", ownerReference := none }

/-- C4 counterexample: a pod-template annotation of the previous workload is
NOT preserved in the new pod template — the builder seeds the template
annotations from the previous workload's object annotations, not its
pod-template annotations. -/
theorem claim_c4_counterexample :
    mapLookup oldStsTemplateAnn.templateAnnotations "foo" = some "bar" ∧
    mapLookup (statefulSetForVpnGw gwSynced (some oldStsTemplateAnn)).1.templateAnnotations
      "foo" = none := by
  decide

/-- C4 (amended): the new pod-template annotations hold the four controller
keys with their spec-derived values, and any other key carries exactly the
previous workload's object-annotation value (none when there is no previous
workload). -/
theorem claim_c4_amended (gw : VpnGw) (oldSts : Option StatefulSet) (k : String)
    (hk1 : k ≠ KubeovnLogicalSwitchAnnotation) (hk2 : k ≠ KubeovnIpAddressAnnotation)
    (hk3 : k ≠ KubeovnIngressRateAnnotation) (hk4 : k ≠ KubeovnEgressRateAnnotation) :
    mapLookup (statefulSetForVpnGw gw oldSts).1.templateAnnotations
        KubeovnLogicalSwitchAnnotation = some gw.spec.subnet ∧
    mapLookup (statefulSetForVpnGw gw oldSts).1.templateAnnotations
        KubeovnIpAddressAnnotation = some gw.spec.ip ∧
    mapLookup (statefulSetForVpnGw gw oldSts).1.templateAnnotations
        KubeovnIngressRateAnnotation = some gw.spec.qoSBandwidth ∧
    mapLookup (statefulSetForVpnGw gw oldSts).1.templateAnnotations
        KubeovnEgressRateAnnotation = some gw.spec.qoSBandwidth ∧
    mapLookup (statefulSetForVpnGw gw oldSts).1.templateAnnotations k =
      (match oldSts with
       | some o => mapLookup o.annotations k
       | none => none) := by
  have hT : (statefulSetForVpnGw gw oldSts).1.templateAnnotations =
      mapInsert (mapInsert (mapInsert (mapInsert
        (match oldSts with
         | some o => if o.annotations.length ≠ 0 then o.annotations else []
         | none => [])
        KubeovnLogicalSwitchAnnotation gw.spec.subnet)
        KubeovnIpAddressAnnotation gw.spec.ip)
        KubeovnIngressRateAnnotation gw.spec.qoSBandwidth)
        KubeovnEgressRateAnnotation gw.spec.qoSBandwidth := rfl
  have h12 : KubeovnLogicalSwitchAnnotation ≠ KubeovnIpAddressAnnotation := by decide
  have h13 : KubeovnLogicalSwitchAnnotation ≠ KubeovnIngressRateAnnotation := by decide
  have h14 : KubeovnLogicalSwitchAnnotation ≠ KubeovnEgressRateAnnotation := by decide
  have h23 : KubeovnIpAddressAnnotation ≠ KubeovnIngressRateAnnotation := by decide
  have h24 : KubeovnIpAddressAnnotation ≠ KubeovnEgressRateAnnotation := by decide
  have h34 : KubeovnIngressRateAnnotation ≠ KubeovnEgressRateAnnotation := by decide
  refine ⟨?_, ?_, ?_, ?_, ?_⟩
  · rw [hT, mapLookup_mapInsert_ne _ _ _ _ h14, mapLookup_mapInsert_ne _ _ _ _ h13,
      mapLookup_mapInsert_ne _ _ _ _ h12, mapLookup_mapInsert_self]
  · rw [hT, mapLookup_mapInsert_ne _ _ _ _ h24, mapLookup_mapInsert_ne _ _ _ _ h23,
      mapLookup_mapInsert_self]
  · rw [hT, mapLookup_mapInsert_ne _ _ _ _ h34, mapLookup_mapInsert_self]
  · rw [hT, mapLookup_mapInsert_self]
  · rw [hT, mapLookup_mapInsert_ne _ _ _ _ hk4, mapLookup_mapInsert_ne _ _ _ _ hk3,
      mapLookup_mapInsert_ne _ _ _ _ hk2, mapLookup_mapInsert_ne _ _ _ _ hk1]
    cases oldSts with
    | none => rfl
    | some o =>
      by_cases ho : o.annotations.length ≠ 0
      · simp [ho]
      · have he : o.annotations = [] := List.length_eq_zero.mp (not_not.mp ho)
        simp [ho, he, mapLookup]

/-- Witness for C4 (amended) at concrete inputs: the controller key holds
the spec subnet and the foreign key `foo` carries the previous object
annotation. -/
theorem claim_c4_amended_witness :
    mapLookup (statefulSetForVpnGw gwSynced (some oldStsWithAnn)).1.templateAnnotations
        KubeovnLogicalSwitchAnnotation = some gwSynced.spec.subnet ∧
    mapLookup (statefulSetForVpnGw gwSynced (some oldStsWithAnn)).1.templateAnnotations
        "foo" = mapLookup oldStsWithAnn.annotations "foo" := by
  have h := claim_c4_amended gwSynced (some oldStsWithAnn) "foo"
    (by decide) (by decide) (by decide) (by decide)
  exact ⟨h.1, h.2.2.2.2⟩

/-- C9 counterexample: called with a previous workload that has a non-empty
object annotation map, the builder writes the controller keys into that
map — the previous workload does not come back unchanged. -/
theorem claim_c9_counterexample :
    (statefulSetForVpnGw gwSynced (some oldStsWithAnn)).2 ≠ some oldStsWithAnn ∧
    ((statefulSetForVpnGw gwSynced (some oldStsWithAnn)).2.map
      (fun o => mapLookup o.annotations KubeovnLogicalSwitchAnnotation)) =
      some (some "net1") := by
  decide

/-- C9 (amended): the builder is pure in its previous-workload argument only
when that argument is absent or carries no object annotations; when the
previous workload has a non-empty object annotation map, that same map
object — shared with the new pod template — receives the four controller
keys, so the old workload comes back with its annotations equal to the new
pod-template annotations. -/
theorem claim_c9_frame (gw : VpnGw) (o : StatefulSet) :
    (statefulSetForVpnGw gw none).2 = none ∧
    (o.annotations = [] → (statefulSetForVpnGw gw (some o)).2 = some o) ∧
    (o.annotations ≠ [] → (statefulSetForVpnGw gw (some o)).2 =
      some { o with annotations :=
        (statefulSetForVpnGw gw (some o)).1.templateAnnotations }) := by
  refine ⟨rfl, ?_, ?_⟩
  · intro h
    unfold statefulSetForVpnGw
    simp [h]
  · intro h
    unfold statefulSetForVpnGw
    simp [h]

/-- Witness for C9 (amended) at concrete inputs. -/
theorem claim_c9_frame_witness :
    (statefulSetForVpnGw gwSynced (some oldStsWithAnn)).2 =
      some { oldStsWithAnn with annotations :=
        (statefulSetForVpnGw gwSynced (some oldStsWithAnn)).1.templateAnnotations } :=
  (claim_c9_frame gwSynced oldStsWithAnn).2.2 (by decide)

/-- A valid gateway with IPsec enabled, status in sync with spec. -/
def gwIpsec : VpnGw :=
  { gwSynced with spec.enableIpsecVpn := true, status.enableIpsecVpn := true }

/-- A fully populated connection owned by gateway `gw1`. -/
def connGw1 : IpsecConn :=
  { name := "conn-a",
    spec := { vpnGw := "gw1", auth := "psk", ikeVersion := "2",
              proposals := "default", localCN := "lcn", localPublicIp := "1.2.3.4",
              localPrivateCidrs := "10.0.0.0/24", remoteCN := "rcn",
              remotePublicIp := "5.6.7.8", remotePrivateCidrs := "10.1.0.0/24" } }

/-- An environment in which the refresh command runs without an execution
error but produces output on both captured streams. -/
def envRefreshOk : VpnGwReconcileEnv :=
  { getSts := GetStsResult.notFound, createErr := none, updateErr := none,
    listConns := Except.ok [connGw1],
    getPod := Except.ok { name := "gw1-0", phase := "Running" },
    execRes := { stdOutput := "refreshed", errOutput := "deprecated option", err := none },
    statusUpdateErr := none }

/-- C1 counterexample: the refresh command returns no execution error but
produces output on both captured streams, and the reconciliation still
reports success — the streams alone never make the step fail. -/
theorem claim_c1_counterexample :
    envRefreshOk.execRes.stdOutput ≠ "" ∧
    envRefreshOk.execRes.errOutput ≠ "" ∧
    handleAddOrUpdateVpnGw envRefreshOk gwIpsec = (SyncStateSuccess, true) := by
  decide

/-- C1 (amended): once the refresh command is executed, the step fails (with
a retryable `SyncStateError`) exactly when the executor returns an error —
the captured streams only shape the logged message; when the executor
returns no error the reconciliation proceeds regardless of stream contents
and succeeds when the final status write does. -/
theorem claim_c1_amended (env : VpnGwReconcileEnv) (gw : VpnGw)
    (res : List IpsecConn) (pod : Pod)
    (hval : validateVpnGw gw = none)
    (hsts : env.getSts = GetStsResult.notFound)
    (hcr : env.createErr = none)
    (hips : gw.spec.enableIpsecVpn = true)
    (hlist : env.listConns = Except.ok res)
    (hconn : aggregateConns gw.name res ≠ "")
    (hpod : env.getPod = Except.ok pod)
    (hrun : pod.phase = "Running") :
    (env.execRes.err.isSome = true →
      handleAddOrUpdateVpnGw env gw = (SyncStateError, true)) ∧
    (env.execRes.err = none → env.statusUpdateErr = none →
      handleAddOrUpdateVpnGw env gw = (SyncStateSuccess, true)) := by
  constructor
  · intro hex
    unfold handleAddOrUpdateVpnGw handleIpsecTail
    simp [hval, hsts, hcr, hips, hlist, hconn, hpod, hrun, hex]
  · intro hex hst
    unfold handleAddOrUpdateVpnGw handleIpsecTail
    simp [hval, hsts, hcr, hips, hlist, hconn, hpod, hrun, hex, hst]

/-- Witness for C1 (amended) at concrete inputs. -/
theorem claim_c1_amended_witness :
    handleAddOrUpdateVpnGw envRefreshOk gwIpsec = (SyncStateSuccess, true) :=
  (claim_c1_amended envRefreshOk gwIpsec [connGw1]
      { name := "gw1-0", phase := "Running" }
      (by decide) (by decide) (by decide) (by decide) (by decide) (by decide)
      (by decide) (by decide)).2 (by decide) (by decide)

/-- An environment with IPsec connections listed but none owned by the
gateway (empty list), so the serialized string is empty. -/
def envNoConns : VpnGwReconcileEnv :=
  { getSts := GetStsResult.notFound, createErr := none, updateErr := none,
    listConns := Except.ok [],
    getPod := Except.error "pod not found",
    execRes := { stdOutput := "", errOutput := "", err := some "never executed" },
    statusUpdateErr := none }

/-- An environment in which the instance pod exists but is not running. -/
def envPodPending : VpnGwReconcileEnv :=
  { getSts := GetStsResult.notFound, createErr := none, updateErr := none,
    listConns := Except.ok [connGw1],
    getPod := Except.ok { name := "gw1-0", phase := "Pending" },
    execRes := { stdOutput := "", errOutput := "", err := some "never executed" },
    statusUpdateErr := none }

/-- C3 counterexample: with IPsec enabled and an empty serialized connection
string the reconciliation does not return a retryable error — it skips the
refresh and succeeds. -/
theorem claim_c3_counterexample :
    gwIpsec.spec.enableIpsecVpn = true ∧
    aggregateConns gwIpsec.name [] = "" ∧
    handleAddOrUpdateVpnGw envNoConns gwIpsec = (SyncStateSuccess, false) := by
  decide

/-- C3 (amended): with IPsec enabled, when the serialized connection string
is non-empty and the pod is missing or not running, the reconciliation
returns a retryable `SyncStateError` without executing the refresh command;
when the serialized string is empty the refresh is skipped without error
and the reconciliation succeeds when the status write does. -/
theorem claim_c3_amended (env : VpnGwReconcileEnv) (gw : VpnGw)
    (res : List IpsecConn)
    (hval : validateVpnGw gw = none)
    (hsts : env.getSts = GetStsResult.notFound)
    (hcr : env.createErr = none)
    (hips : gw.spec.enableIpsecVpn = true)
    (hlist : env.listConns = Except.ok res) :
    (aggregateConns gw.name res ≠ "" →
      (∀ e, env.getPod = Except.error e →
        handleAddOrUpdateVpnGw env gw = (SyncStateError, false)) ∧
      (∀ pod, env.getPod = Except.ok pod → pod.phase ≠ "Running" →
        handleAddOrUpdateVpnGw env gw = (SyncStateError, false))) ∧
    (aggregateConns gw.name res = "" → env.statusUpdateErr = none →
      handleAddOrUpdateVpnGw env gw = (SyncStateSuccess, false)) := by
  constructor
  · intro hconn
    constructor
    · intro e hpod
      unfold handleAddOrUpdateVpnGw handleIpsecTail
      simp [hval, hsts, hcr, hips, hlist, hconn, hpod]
    · intro pod hpod hnr
      unfold handleAddOrUpdateVpnGw handleIpsecTail
      simp [hval, hsts, hcr, hips, hlist, hconn, hpod, hnr]
  · intro hconn hst
    unfold handleAddOrUpdateVpnGw handleIpsecTail
    simp [hval, hsts, hcr, hips, hlist, hconn, hst]

/-- Witness for C3 (amended) at concrete inputs: a pending pod yields a
retryable error without execution; an empty serialized string yields
success without execution. -/
theorem claim_c3_amended_witness :
    handleAddOrUpdateVpnGw envPodPending gwIpsec = (SyncStateError, false) ∧
    handleAddOrUpdateVpnGw envNoConns gwIpsec = (SyncStateSuccess, false) :=
  ⟨((claim_c3_amended envPodPending gwIpsec [connGw1]
      (by decide) (by decide) (by decide) (by decide) (by decide)).1
      (by decide)).2 { name := "gw1-0", phase := "Pending" } (by decide) (by decide),
   (claim_c3_amended envNoConns gwIpsec []
      (by decide) (by decide) (by decide) (by decide) (by decide)).2
      (by decide) (by decide)⟩

end KubeOvnOperator
